import Mathlib

/-!
# Verification of `fg-calendar-reminder.py`

A shallow embedding of the calendar-reminder daemon. The program wakes once a
minute, checks a quiet-hours ("sleep hours") window, fetches upcoming calendar
events, matches those whose rounded minutes-to-start lie in a configured offset
set, and dispatches one desktop notification plus one audio invocation per
batch of matches.

Modelling conventions:
* Naive instants (`datetime` values with `tzinfo` stripped) are integers,
  counted in whole seconds. All claims quantify over integer second deltas.
* Python's `timedelta.seconds` field is the total signed difference taken
  modulo 86400 (timedelta normalisation keeps `0 <= seconds < 86400` and puts
  the rest into `days`), which `%` on `ℤ` (Euclidean mod, non-negative for a
  positive modulus, agreeing with Python's floored mod here) reproduces.
* Python's `round` on a float is round-half-to-even; for the values that occur
  (an integer in `[0, 86400)` divided by 60) the float computation is exact
  enough that rounding the exact rational gives the same integer, so `pyRound`
  works on `ℚ`.
* The side effects of one `monitor_events` call (credential/service setup, the
  calendar API fetch, `notify-send`, audio playback, `time.sleep`) are recorded
  as an explicit `Effect` trace; a raised exception is an explicit flag.
-/

/-- Configuration constant `NOTIFY_TIME_MS = '50000'`. -/
def NOTIFY_TIME_MS : String := "50000"

/-- Configuration constant `MINUTES_LEFT = [1, 5, 10]`. -/
def MINUTES_LEFT : List ℤ := [1, 5, 10]

/-- Configuration constant `SLEEP_HOURS = [(20, 6)]`. -/
def SLEEP_HOURS : List (ℕ × ℕ) := [(20, 6)]

/-- Configuration constant `AUDIO_PLAY_CMD = ["play", "5glasses.ogg"]`. -/
def AUDIO_PLAY_CMD : List String := ["play", "5glasses.ogg"]

/-- Python's builtin `round` on an exact rational: round to the nearest
integer, ties going to the even neighbour (round-half-to-even). -/
def pyRound (q : ℚ) : ℤ :=
  if q - ⌊q⌋ < 1 / 2 then ⌊q⌋
  else if 1 / 2 < q - ⌊q⌋ then ⌊q⌋ + 1
  else if ⌊q⌋ % 2 = 0 then ⌊q⌋ else ⌊q⌋ + 1

/-- Integer form of `pyRound (s / 60)`: quotient and remainder by 60, with the
half-way remainder 30 resolved towards the even quotient. -/
def roundDiv60 (s : ℤ) : ℤ :=
  if s % 60 < 30 then s / 60
  else if 30 < s % 60 then s / 60 + 1
  else if s / 60 % 2 = 0 then s / 60 else s / 60 + 1

/-- A calendar event as consumed by `monitor_events`: the raw `summary`
string, the raw `start` string (`event['start']` dateTime-or-date value), and
`startNaive`, the instant `datetime.fromisoformat(start).replace(tzinfo=None)`
expressed in whole seconds. -/
structure Event where
  summary : String
  start : String
  startNaive : ℤ
deriving DecidableEq, Repr

/-- The `Alert` class: summary, raw start string, and computed minutes left. -/
structure Alert where
  summary : String
  date : String
  minutes_left : ℤ
deriving DecidableEq, Repr

/-- `Alert.__str__`: `"In %d minutes [%s] -> %s" % (minutes_left, date, summary)`. -/
def alertStr (a : Alert) : String :=
  "In " ++ toString a.minutes_left ++ " minutes [" ++ a.date ++ "] -> " ++ a.summary

/-- Line 142: `round((start_datetime.replace(tzinfo=None) - now_datetime).seconds / 60)`.
The timedelta's `.seconds` field is the signed difference modulo 86400. -/
def minsLeft (start_naive now : ℤ) : ℤ :=
  pyRound ((((start_naive - now) % 86400 : ℤ) : ℚ) / 60)

/-- Lines 137-144: build the alert list, keeping each event whose computed
`mins_left` is in the configured offset list, preserving event order. -/
def matchEvents (now : ℤ) (events : List Event) (offsets : List ℤ) : List Alert :=
  events.filterMap fun e =>
    if minsLeft e.startNaive now ∈ offsets
    then some { summary := e.summary, date := e.start,
                minutes_left := minsLeft e.startNaive now }
    else none

/-- One iteration of the `SLEEP_HOURS` loop body (lines 115-121): a window
`(start, end)` matches the current hour via the wrap-around test when
`end < start`, else via the plain interval test. -/
def windowMatches (h : ℕ) (w : ℕ × ℕ) : Bool :=
  if w.2 < w.1 ∧ (w.1 ≤ h ∨ h ≤ w.2) then true
  else if w.1 ≤ h ∧ h ≤ w.2 then true
  else false

/-- Lines 114-124: the cycle is skipped when any configured window matches the
current hour (the Python loop returns on the first match). -/
def isQuiet (h : ℕ) (ws : List (ℕ × ℕ)) : Bool :=
  ws.any fun w => windowMatches h w

/-- The quiet-window membership test as the spec words it: a non-wrapping
window `(s, e)` with `s ≤ e` matches iff `s ≤ h ≤ e`; a wrapping window with
`e < s` matches iff `h ≥ s` or `h ≤ e`. -/
def specWindowMatch (h : ℕ) (w : ℕ × ℕ) : Prop :=
  if w.2 < w.1 then h ≥ w.1 ∨ h ≤ w.2 else w.1 ≤ h ∧ h ≤ w.2

instance (h : ℕ) (w : ℕ × ℕ) : Decidable (specWindowMatch h w) := by
  unfold specWindowMatch; infer_instance

/-- Observable side effects of one scheduler cycle. -/
inductive Effect where
  | createService
  | fetchEvents
  | notifySend (title body : String)
  | playAudio
  | sleep (secs : ℕ)
deriving DecidableEq, Repr

/-- Outcome of the calendar API call `service.events().list(...).execute()`:
either a list of events or a raised exception. -/
inductive FetchResult where
  | ok (events : List Event)
  | failure
deriving DecidableEq, Repr

/-- Lines 146-162: the notification block. The caller returns before this
block when the alert list is empty; one alert yields the single-event
notification, more than one the batched notification; either way exactly one
`subprocess.Popen(AUDIO_PLAY_CMD)` follows. -/
def dispatch : List Alert → List Effect
  | [] => []
  | [a] =>
    [Effect.notifySend ("Upcoming event: " ++ a.summary.take 50) (alertStr a),
     Effect.playAudio]
  | a :: b :: rest =>
    [Effect.notifySend ("Upcoming events: " ++ toString (a :: b :: rest).length)
       (String.intercalate "\n" ((a :: b :: rest).map alertStr)),
     Effect.playAudio]

/-- `monitor_events` (lines 102-162) as an effect trace plus an
exception-escaped flag: service setup happens first; the quiet-hours check
returns early; otherwise the fetch runs (and may raise); matched alerts, if
any, are dispatched. `sleepHours` and `offsets` are the startup configuration
(`SLEEP_HOURS`, `MINUTES_LEFT` in the source). -/
def monitor_events (sleepHours : List (ℕ × ℕ)) (offsets : List ℤ)
    (hour : ℕ) (now : ℤ) (fetch : FetchResult) : List Effect × Bool :=
  if isQuiet hour sleepHours then ([Effect.createService], false)
  else
    match fetch with
    | FetchResult.failure => ([Effect.createService, Effect.fetchEvents], true)
    | FetchResult.ok events =>
        ([Effect.createService, Effect.fetchEvents]
          ++ dispatch (matchEvents now events offsets), false)

/-- Line 88: `wait_time = 60 - datetime.datetime.now().second`. -/
def wait_time (second : ℕ) : ℕ := 60 - second

/-- The clock data one cycle of the daemon loop observes: the local hour and
naive instant read inside `monitor_events`, the outcome of the API call, and
the second read for the sleep computation after the cycle's work. -/
structure CycleInput where
  hour : ℕ
  now : ℤ
  fetch : FetchResult
  second : ℕ
deriving DecidableEq, Repr

/-- The `while True` loop of `create_daemon` (lines 85-99), run over a finite
prefix of cycle inputs. Each cycle runs `monitor_events` and then sleeps
`wait_time` seconds; an exception escaping `monitor_events` is caught by the
`except Exception` handler and makes `create_daemon` return 1, ending the
loop (later cycles never run). The result is the list of per-cycle effect
traces together with `some code` when the loop terminated, `none` when it was
still running after the given inputs. (`SystemExit` can only arrive from
outside `monitor_events` and is not modelled.) -/
def create_daemon_loop : List CycleInput → List (List Effect) × Option ℤ
  | [] => ([], none)
  | c :: rest =>
    match monitor_events SLEEP_HOURS MINUTES_LEFT c.hour c.now c.fetch with
    | (eff, true) => ([eff], some 1)
    | (eff, false) =>
        let res := create_daemon_loop rest
        ((eff ++ [Effect.sleep (wait_time c.second)]) :: res.1, res.2)

/-- Notification payloads (title, body) occurring in an effect trace. -/
def notifyMsgs : List Effect → List (String × String)
  | [] => []
  | Effect.notifySend t b :: es => (t, b) :: notifyMsgs es
  | _ :: es => notifyMsgs es

/-- Number of audio-playback invocations in an effect trace. -/
def audioCount : List Effect → ℕ
  | [] => 0
  | Effect.playAudio :: es => audioCount es + 1
  | _ :: es => audioCount es

/-- `pyRound` of an integer divided by 60 agrees with the all-integer
computation `roundDiv60`. -/
theorem pyRound_div60 (s : ℤ) : pyRound ((s : ℚ) / 60) = roundDiv60 s := by
  have hr0 : 0 ≤ s % 60 := Int.emod_nonneg s (by norm_num)
  have hr60 : s % 60 < 60 := Int.emod_lt_of_pos s (by norm_num)
  have hsplit : (60 : ℤ) * (s / 60) + s % 60 = s := Int.ediv_add_emod s 60
  have hcast : (s : ℚ) = 60 * ((s / 60 : ℤ) : ℚ) + ((s % 60 : ℤ) : ℚ) := by
    exact_mod_cast hsplit.symm
  have hq : (s : ℚ) / 60 = ((s / 60 : ℤ) : ℚ) + ((s % 60 : ℤ) : ℚ) / 60 := by
    rw [hcast]; ring
  have hc0 : (0 : ℚ) ≤ ((s % 60 : ℤ) : ℚ) := by exact_mod_cast hr0
  have hc60 : ((s % 60 : ℤ) : ℚ) < 60 := by exact_mod_cast hr60
  have hfrac0 : (0 : ℚ) ≤ ((s % 60 : ℤ) : ℚ) / 60 := by positivity
  have hfrac1 : ((s % 60 : ℤ) : ℚ) / 60 < 1 := by
    rw [div_lt_one (by norm_num : (0 : ℚ) < 60)]; exact hc60
  have hfloor0 : ⌊((s % 60 : ℤ) : ℚ) / 60⌋ = 0 :=
    Int.floor_eq_zero_iff.mpr (Set.mem_Ico.mpr ⟨hfrac0, hfrac1⟩)
  have hfloor : ⌊(s : ℚ) / 60⌋ = s / 60 := by
    rw [hq, add_comm, Int.floor_add_int, hfloor0, zero_add]
  have hsub : (s : ℚ) / 60 - ((s / 60 : ℤ) : ℚ) = ((s % 60 : ℤ) : ℚ) / 60 := by
    rw [hq]; ring
  unfold pyRound roundDiv60
  rw [hfloor, hsub]
  rcases lt_trichotomy (s % 60) 30 with h | h | h
  · have hrc : ((s % 60 : ℤ) : ℚ) < 30 := by exact_mod_cast h
    have h1 : ((s % 60 : ℤ) : ℚ) / 60 < 1 / 2 := by
      rw [div_lt_iff₀ (by norm_num : (0 : ℚ) < 60)]; linarith
    rw [if_pos h1, if_pos h]
  · have hfr : ((s % 60 : ℤ) : ℚ) / 60 = 1 / 2 := by
      rw [h]; norm_num
    rw [hfr, if_neg (lt_irrefl _), if_neg (lt_irrefl _),
        if_neg (by omega : ¬ s % 60 < 30), if_neg (by omega : ¬ 30 < s % 60)]
  · have hrc : (30 : ℚ) < ((s % 60 : ℤ) : ℚ) := by exact_mod_cast h
    have h1 : ¬ ((s % 60 : ℤ) : ℚ) / 60 < 1 / 2 := by
      rw [not_lt, le_div_iff₀ (by norm_num : (0 : ℚ) < 60)]; linarith
    have h2 : (1 : ℚ) / 2 < ((s % 60 : ℤ) : ℚ) / 60 := by
      rw [lt_div_iff₀ (by norm_num : (0 : ℚ) < 60)]; linarith
    rw [if_neg h1, if_pos h2, if_neg (by omega : ¬ s % 60 < 30), if_pos h]

/-- `minsLeft` in all-integer form: the timedelta seconds field is the signed
difference mod 86400, and the rounded division happens via `roundDiv60`. -/
theorem minsLeft_eq (start_naive now : ℤ) :
    minsLeft start_naive now = roundDiv60 ((start_naive - now) % 86400) := by
  unfold minsLeft
  exact pyRound_div60 _

/-- Unfolding `matchEvents` over one event. -/
theorem matchEvents_cons (now : ℤ) (e : Event) (es : List Event) (offsets : List ℤ) :
    matchEvents now (e :: es) offsets =
      (if minsLeft e.startNaive now ∈ offsets
       then [{ summary := e.summary, date := e.start,
               minutes_left := minsLeft e.startNaive now }]
       else []) ++ matchEvents now es offsets := by
  simp only [matchEvents, List.filterMap_cons]
  split_ifs with h
  · simp
  · simp

/-- When the current hour is not quiet and the API call raises, the cycle's
trace stops at the fetch and the exception escapes `monitor_events`. -/
theorem monitor_events_failure (sleepHours : List (ℕ × ℕ)) (offsets : List ℤ)
    (hour : ℕ) (now : ℤ) (hq : isQuiet hour sleepHours = false) :
    monitor_events sleepHours offsets hour now FetchResult.failure
      = ([Effect.createService, Effect.fetchEvents], true) := by
  unfold monitor_events
  rw [hq]
  simp

/-- When the current hour is not quiet and the API call returns events, the
cycle's trace is service setup, fetch, then the dispatch of the matches. -/
theorem monitor_events_ok (sleepHours : List (ℕ × ℕ)) (offsets : List ℤ)
    (hour : ℕ) (now : ℤ) (events : List Event)
    (hq : isQuiet hour sleepHours = false) :
    monitor_events sleepHours offsets hour now (FetchResult.ok events)
      = ([Effect.createService, Effect.fetchEvents]
          ++ dispatch (matchEvents now events offsets), false) := by
  unfold monitor_events
  rw [hq]
  simp

/-- Loop step when the cycle's work completes normally: its trace (ending with
the sleep) is prepended and the loop goes on with the remaining cycles. -/
theorem create_daemon_loop_step (c : CycleInput) (rest : List CycleInput)
    (hm : (monitor_events SLEEP_HOURS MINUTES_LEFT c.hour c.now c.fetch).2 = false) :
    create_daemon_loop (c :: rest)
      = (((monitor_events SLEEP_HOURS MINUTES_LEFT c.hour c.now c.fetch).1
          ++ [Effect.sleep (wait_time c.second)]) :: (create_daemon_loop rest).1,
         (create_daemon_loop rest).2) := by
  rcases hme : monitor_events SLEEP_HOURS MINUTES_LEFT c.hour c.now c.fetch with ⟨eff, exn⟩
  rw [hme] at hm
  simp at hm
  subst hm
  simp [create_daemon_loop, hme]

/-- Per-window agreement between the embedded test and the spec's wording. -/
theorem windowMatches_iff (h : ℕ) (w : ℕ × ℕ) :
    windowMatches h w = true ↔ specWindowMatch h w := by
  unfold windowMatches specWindowMatch
  split_ifs with h1 h2 h3 <;> simp_all

/-- C4: `isQuiet h ws` is true iff some window `(s, e)` in `ws` matches `h`,
where a non-wrapping window (`s ≤ e`) matches iff `s ≤ h ≤ e` and a wrapping
window (`e < s`) matches iff `h ≥ s` or `h ≤ e`; over the empty window list it
is false, and a window with `s = e` matches only during that single hour. -/
theorem isQuiet_spec :
    (∀ (h : ℕ) (ws : List (ℕ × ℕ)),
      isQuiet h ws = true ↔ ∃ w ∈ ws, specWindowMatch h w) ∧
    (∀ h : ℕ, isQuiet h [] = false) ∧
    (∀ h s : ℕ, isQuiet h [(s, s)] = true ↔ h = s) := by
  refine ⟨?_, ?_, ?_⟩
  · intro h ws
    rw [isQuiet, List.any_eq_true]
    exact exists_congr fun w => and_congr_right fun _ => windowMatches_iff h w
  · intro h
    rfl
  · intro h s
    rw [isQuiet, List.any_eq_true]
    constructor
    · rintro ⟨w, hw, hm⟩
      simp only [List.mem_singleton] at hw
      subst hw
      rw [windowMatches_iff] at hm
      unfold specWindowMatch at hm
      rw [if_neg (lt_irrefl s)] at hm
      omega
    · intro he
      subst he
      exact ⟨(h, h), List.mem_singleton.mpr rfl,
        (windowMatches_iff h (h, h)).mpr
          (by unfold specWindowMatch; rw [if_neg (lt_irrefl h)]; omega)⟩

/-- Witness for C4 at the configured window `(20, 6)` and hours 3, 10, plus
the empty window list. -/
theorem isQuiet_spec_witness :
    isQuiet 3 [(20, 6)] = true ∧ isQuiet 10 [(20, 6)] = false ∧ isQuiet 5 [] = false := by
  refine ⟨?_, ?_, isQuiet_spec.2.1 5⟩
  · exact (isQuiet_spec.1 3 [(20, 6)]).mpr
      ⟨(20, 6), List.mem_singleton.mpr rfl, by unfold specWindowMatch; norm_num⟩
  · have h10 : ¬ isQuiet 10 [(20, 6)] = true := by
      intro hh
      obtain ⟨w, hw, hm⟩ := (isQuiet_spec.1 10 [(20, 6)]).mp hh
      simp only [List.mem_singleton] at hw
      subst hw
      unfold specWindowMatch at hm
      norm_num at hm
    simpa using h10

/-- C5: the sleep computed at the end of a cycle whose clock reads second `S`
is `60 - S` seconds (so a full 60 seconds at `S = 0`, not 0), and that is the
duration the daemon loop actually sleeps after a normally completed cycle. -/
theorem scheduler_sleep_duration :
    (∀ s : ℕ, s < 60 → wait_time s = 60 - s) ∧
    wait_time 0 = 60 ∧
    (∀ (c : CycleInput) (rest : List CycleInput),
      (monitor_events SLEEP_HOURS MINUTES_LEFT c.hour c.now c.fetch).2 = false →
      create_daemon_loop (c :: rest)
        = (((monitor_events SLEEP_HOURS MINUTES_LEFT c.hour c.now c.fetch).1
            ++ [Effect.sleep (wait_time c.second)]) :: (create_daemon_loop rest).1,
           (create_daemon_loop rest).2)) :=
  ⟨fun _ _ => rfl, rfl, fun c rest hm => create_daemon_loop_step c rest hm⟩

/-- Witness for C5: second 59 sleeps 1 second, second 0 sleeps 60, and a
concrete quiet-hour cycle read at second 45 sleeps 15 seconds. -/
theorem scheduler_sleep_duration_witness :
    wait_time 0 = 60 ∧ wait_time 59 = 60 - 59 ∧
    create_daemon_loop [⟨21, 0, FetchResult.failure, 45⟩]
      = ([[Effect.createService, Effect.sleep 15]], none) := by
  refine ⟨scheduler_sleep_duration.2.1, scheduler_sleep_duration.1 59 (by decide), ?_⟩
  rw [scheduler_sleep_duration.2.2 ⟨21, 0, FetchResult.failure, 45⟩ [] (by decide)]
  decide

/-- C6: a non-empty alert list produces exactly one notification; a single
alert gets title `"Upcoming event: "` plus the summary truncated to 50
characters with the formatted line as body; several alerts get title
`"Upcoming events: {count}"` with the newline-joined formatted lines (one per
alert) as body. -/
theorem dispatch_notification_format (alerts : List Alert) (h : alerts ≠ []) :
    (notifyMsgs (dispatch alerts)).length = 1 ∧
    (∀ a, alerts = [a] →
      notifyMsgs (dispatch alerts)
        = [("Upcoming event: " ++ a.summary.take 50, alertStr a)]) ∧
    (1 < alerts.length →
      notifyMsgs (dispatch alerts)
        = [("Upcoming events: " ++ toString alerts.length,
            String.intercalate "\n" (alerts.map alertStr))]) ∧
    (alerts.map alertStr).length = alerts.length := by
  rcases alerts with _ | ⟨a, _ | ⟨b, rest⟩⟩
  · exact absurd rfl h
  · refine ⟨rfl, ?_, ?_, by simp⟩
    · intro a0 h0
      injection h0 with h1 _
      subst h1
      rfl
    · intro hh
      norm_num at hh
  · refine ⟨rfl, ?_, fun _ => rfl, by simp⟩
    intro a0 h0
    simp at h0

/-- Witness for C6 with one concrete alert and with two concrete alerts. -/
theorem dispatch_notification_format_witness :
    notifyMsgs (dispatch [⟨"Standup", "T", 5⟩])
      = [("Upcoming event: " ++ (⟨"Standup", "T", 5⟩ : Alert).summary.take 50,
          alertStr ⟨"Standup", "T", 5⟩)] ∧
    notifyMsgs (dispatch [⟨"A", "T1", 5⟩, ⟨"B", "T2", 10⟩])
      = [("Upcoming events: " ++ toString (2 : ℕ),
          String.intercalate "\n" [alertStr ⟨"A", "T1", 5⟩, alertStr ⟨"B", "T2", 10⟩])] := by
  constructor
  · exact (dispatch_notification_format [⟨"Standup", "T", 5⟩]
      (List.cons_ne_nil _ _)).2.1 _ rfl
  · have h2 := (dispatch_notification_format [⟨"A", "T1", 5⟩, ⟨"B", "T2", 10⟩]
      (List.cons_ne_nil _ _)).2.2.1 (by norm_num)
    simpa using h2

/-- C7: dispatching a non-empty alert list triggers exactly one
audio-playback invocation, whatever the number of alerts. -/
theorem dispatch_audio_once (alerts : List Alert) (h : alerts ≠ []) :
    audioCount (dispatch alerts) = 1 := by
  rcases alerts with _ | ⟨a, _ | ⟨b, rest⟩⟩
  · exact absurd rfl h
  · rfl
  · rfl

/-- Witness for C7: one alert and five alerts each trigger one audio call. -/
theorem dispatch_audio_once_witness :
    audioCount (dispatch [⟨"A", "T", 1⟩]) = 1 ∧
    audioCount (dispatch
      [⟨"A", "T", 1⟩, ⟨"B", "T", 2⟩, ⟨"C", "T", 3⟩, ⟨"D", "T", 4⟩, ⟨"E", "T", 5⟩]) = 1 :=
  ⟨dispatch_audio_once _ (by simp), dispatch_audio_once _ (by simp)⟩

/-- C8: in a cycle whose current hour lies in a configured quiet window, the
cycle stops right after the service setup — no event fetch, no alert matching,
and no notification or audio dispatch happens, whatever the fetch would have
returned. -/
theorem quiet_hours_suppress (sleepHours : List (ℕ × ℕ)) (offsets : List ℤ)
    (hour : ℕ) (now : ℤ) (fetch : FetchResult)
    (hq : isQuiet hour sleepHours = true) :
    monitor_events sleepHours offsets hour now fetch = ([Effect.createService], false) ∧
    Effect.fetchEvents ∉ (monitor_events sleepHours offsets hour now fetch).1 ∧
    Effect.playAudio ∉ (monitor_events sleepHours offsets hour now fetch).1 ∧
    ∀ t b, Effect.notifySend t b ∉ (monitor_events sleepHours offsets hour now fetch).1 := by
  have h1 : monitor_events sleepHours offsets hour now fetch
      = ([Effect.createService], false) := by
    unfold monitor_events
    rw [hq]
    simp
  refine ⟨h1, ?_, ?_, ?_⟩
  · rw [h1]
    simp
  · rw [h1]
    simp
  · intro t b
    rw [h1]
    simp

/-- Witness for C8: at hour 21 inside the configured window `(20, 6)` the
cycle does nothing beyond service setup, even when the fetch would raise. -/
theorem quiet_hours_suppress_witness :
    isQuiet 21 SLEEP_HOURS = true ∧
    monitor_events SLEEP_HOURS MINUTES_LEFT 21 0 FetchResult.failure
      = ([Effect.createService], false) :=
  ⟨by decide,
   (quiet_hours_suppress SLEEP_HOURS MINUTES_LEFT 21 0 FetchResult.failure (by decide)).1⟩

/-- C9: every alert the matcher constructs carries a `minutes_left` value that
belongs to the configured offset set (no other code path builds alerts). -/
theorem alert_minutes_in_offsets (now : ℤ) (events : List Event) (offsets : List ℤ)
    (a : Alert) (ha : a ∈ matchEvents now events offsets) :
    a.minutes_left ∈ offsets := by
  unfold matchEvents at ha
  rw [List.mem_filterMap] at ha
  obtain ⟨e, _, he⟩ := ha
  by_cases hm : minsLeft e.startNaive now ∈ offsets
  · rw [if_pos hm] at he
    injection he with he
    subst he
    exact hm
  · rw [if_neg hm] at he
    exact absurd he (by simp)

/-- Witness for C9: a concrete matched alert 300 seconds ahead carries
`minutes_left = 5`, which is in the configured offsets. -/
theorem alert_minutes_in_offsets_witness :
    (⟨"Standup", "T", 5⟩ : Alert) ∈ matchEvents 0 [⟨"Standup", "T", 300⟩] MINUTES_LEFT ∧
    (5 : ℤ) ∈ MINUTES_LEFT := by
  have hmem : (⟨"Standup", "T", 5⟩ : Alert)
      ∈ matchEvents 0 [⟨"Standup", "T", 300⟩] MINUTES_LEFT := by
    rw [matchEvents_cons, minsLeft_eq]
    decide
  exact ⟨hmem, alert_minutes_in_offsets 0 _ MINUTES_LEFT _ hmem⟩

/-- C1 (amended): when the fetch raises in a non-quiet cycle, the cycle
dispatches nothing, the exception escapes `monitor_events` into
`create_daemon`'s generic handler, and the loop terminates with return value
1 — later cycles never run. -/
theorem fetch_failure_terminates_loop (c : CycleInput) (rest : List CycleInput)
    (hq : isQuiet c.hour SLEEP_HOURS = false) (hf : c.fetch = FetchResult.failure) :
    create_daemon_loop (c :: rest)
      = ([[Effect.createService, Effect.fetchEvents]], some 1) := by
  have hm : monitor_events SLEEP_HOURS MINUTES_LEFT c.hour c.now c.fetch
      = ([Effect.createService, Effect.fetchEvents], true) := by
    rw [hf]
    exact monitor_events_failure SLEEP_HOURS MINUTES_LEFT c.hour c.now hq
  simp [create_daemon_loop, hm]

/-- Witness for C1 (amended): a concrete failing cycle followed by one more
planned cycle ends the run at once with exit value 1. -/
theorem fetch_failure_terminates_loop_witness :
    isQuiet 10 SLEEP_HOURS = false ∧
    create_daemon_loop [⟨10, 0, FetchResult.failure, 30⟩, ⟨10, 0, FetchResult.ok [], 0⟩]
      = ([[Effect.createService, Effect.fetchEvents]], some 1) :=
  ⟨by decide,
   fetch_failure_terminates_loop ⟨10, 0, FetchResult.failure, 30⟩
     [⟨10, 0, FetchResult.ok [], 0⟩] (by decide) rfl⟩

/-- Counterexample to C1 as stated: after a cycle whose fetch raises, the loop
does NOT continue — the run over a fetch-failure cycle followed by a cycle
that would have matched and dispatched an alert executes only the first cycle
and exits with return value 1, while that second cycle, run on its own, would
have played the audio alert. -/
theorem fetch_failure_halts_concrete :
    create_daemon_loop
        [⟨10, 0, FetchResult.failure, 30⟩,
         ⟨10, 0, FetchResult.ok [⟨"Standup", "T", 300⟩], 5⟩]
      = ([[Effect.createService, Effect.fetchEvents]], some 1) ∧
    Effect.playAudio ∈
      (monitor_events SLEEP_HOURS MINUTES_LEFT 10 0
        (FetchResult.ok [⟨"Standup", "T", 300⟩])).1 := by
  constructor
  · decide
  · have hmatch : matchEvents 0 [⟨"Standup", "T", 300⟩] MINUTES_LEFT
        = [⟨"Standup", "T", 5⟩] := by
      rw [matchEvents_cons, minsLeft_eq]
      decide
    rw [monitor_events_ok SLEEP_HOURS MINUTES_LEFT 10 0 _ (by decide), hmatch]
    simp [dispatch]

/-- C2, divergence at a concrete input: an event whose naive start is
`now + 86460` seconds (one day and one minute ahead, `Δ ≥ 0`). Rounding the
true minute count gives `round(Δ/60) = 1441`, which is not in the configured
offsets, so the claim says the event is excluded; the code computes the
timedelta's `seconds` field (the difference mod 86400), gets `mins_left = 1`,
and includes the event. -/
theorem matchEvents_day_alias_concrete :
    pyRound (((86460 : ℤ) : ℚ) / 60) = 1441 ∧
    (1441 : ℤ) ∉ MINUTES_LEFT ∧
    matchEvents 0 [⟨"Standup", "2020-01-02T00:01:00", 86460⟩] MINUTES_LEFT
      = [⟨"Standup", "2020-01-02T00:01:00", 1⟩] := by
  refine ⟨(pyRound_div60 86460).trans (by decide), by decide, ?_⟩
  rw [matchEvents_cons, minsLeft_eq]
  decide

/-- C3, divergence at a concrete input: with `now` at second 85800 of the
epoch day (23:50:00) and an all-day event whose date-only start parses to
midnight of that same day (second 0), the start is strictly in the past
(`Δ = -85800`). The timedelta's `seconds` field is `(-85800) mod 86400 = 600`,
so the code computes `mins_left = 10 ∈ offsets` and back-matches the
already-started event, which the claim forbids. -/
theorem matchEvents_past_event_concrete :
    (0 : ℤ) < 85800 ∧
    matchEvents 85800 [⟨"All day", "2020-01-01", 0⟩] MINUTES_LEFT
      = [⟨"All day", "2020-01-01", 10⟩] := by
  refine ⟨by decide, ?_⟩
  rw [matchEvents_cons, minsLeft_eq]
  decide

/-- C10 (amended): for `0 ≤ Δ < 86400` with `Δ/60` an exact half-integer
(`Δ % 60 = 30`), the computed minutes-left is even and lies at distance
exactly one half from `Δ/60` — i.e. it is the nearest even integer
(round-half-to-even). -/
theorem minsLeft_half_rounds_even (now d : ℤ) (h0 : 0 ≤ d) (h1 : d < 86400)
    (h2 : d % 60 = 30) :
    minsLeft (now + d) now % 2 = 0 ∧
    |(d : ℚ) / 60 - (minsLeft (now + d) now : ℚ)| = 1 / 2 := by
  have hmod : (now + d - now) % 86400 = d := by omega
  have hval : minsLeft (now + d) now = roundDiv60 d := by
    rw [minsLeft_eq, hmod]
  have hqr : d = 60 * (d / 60) + 30 := by omega
  have hr : roundDiv60 d = if d / 60 % 2 = 0 then d / 60 else d / 60 + 1 := by
    unfold roundDiv60
    rw [if_neg (by omega), if_neg (by omega)]
  have hcast : (d : ℚ) / 60 = ((d / 60 : ℤ) : ℚ) + 1 / 2 := by
    have hc : (d : ℚ) = 60 * ((d / 60 : ℤ) : ℚ) + 30 := by exact_mod_cast hqr
    rw [hc]
    ring
  rw [hval, hr]
  by_cases hev : d / 60 % 2 = 0
  · rw [if_pos hev]
    refine ⟨hev, ?_⟩
    have he : (d : ℚ) / 60 - ((d / 60 : ℤ) : ℚ) = 1 / 2 := by
      rw [hcast]
      ring
    rw [he]
    norm_num
  · rw [if_neg hev]
    refine ⟨by omega, ?_⟩
    have he : (d : ℚ) / 60 - ((d / 60 + 1 : ℤ) : ℚ) = -(1 / 2) := by
      rw [hcast]
      push_cast
      ring
    rw [he, abs_neg]
    norm_num

/-- Witness for C10 (amended): 90 seconds away rounds to 2 minutes and 150
seconds away also rounds to 2 minutes (both half-minute boundaries resolve to
the even neighbour). -/
theorem minsLeft_half_rounds_even_witness :
    minsLeft 90 0 = 2 ∧ minsLeft 150 0 = 2 ∧
    (minsLeft (0 + 90) 0 % 2 = 0 ∧ |(90 : ℚ) / 60 - (minsLeft (0 + 90) 0 : ℚ)| = 1 / 2) := by
  refine ⟨?_, ?_, minsLeft_half_rounds_even 0 90 (by decide) (by decide) (by decide)⟩
  · rw [minsLeft_eq]
    decide
  · rw [minsLeft_eq]
    decide

/-- Counterexample to C10 as stated: at `Δ = 86430` seconds, `Δ/60` is the
exact half-integer `1440 + 1/2`, whose nearest even integer is 1440 — but the
code computes `mins_left = 0` (the timedelta's `seconds` field drops the day),
which is not within one half of `Δ/60` at all. -/
theorem minsLeft_half_day_alias_concrete :
    (86430 : ℚ) / 60 = 1440 + 1 / 2 ∧
    minsLeft 86430 0 = 0 ∧
    ¬ |(86430 : ℚ) / 60 - (minsLeft 86430 0 : ℚ)| ≤ 1 / 2 := by
  have hv : minsLeft 86430 0 = 0 := by
    rw [minsLeft_eq]
    decide
  refine ⟨by norm_num, hv, ?_⟩
  rw [hv]
  push_cast
  rw [sub_zero, abs_of_nonneg (by norm_num : (0 : ℚ) ≤ 86430 / 60)]
  norm_num
